import Mathlib

/-!
# Verification of the DECtalk bridge (DECtalkBridge.c)

A shallow embedding of the bridge layer between a caller and the DECtalk
text-to-speech engine.  Pure code (the SSML extractor) is translated to
Lean functions over `List Char`; the stateful session code is translated
to explicit state passing over a `BridgeState` record, with the external
engine's behaviour (startup success, in-memory-open success, allocation
success, speak success, and the byte lengths of the audio chunks it
delivers) abstracted into an `EngineRun` record of oracle inputs.
C `int32_t` quantities are modelled as unbounded `Int` (no claim in scope
depends on wrap-around; engine chunk sizes are bounded by the pool's
32768-byte chunk capacity in the real system).
-/

/-! ## Error codes and constants (DECtalkBridge.h) -/

def DECtalkErrorNone : Int := 0

def DECtalkErrorInitFailed : Int := 1

def DECtalkErrorSynthFailed : Int := 2

def DECtalkErrorInvalidVoice : Int := 3

/-- `DECtalkVoiceCount` from the voice enum: voices are 0 (Paul) .. 8 (Wendy). -/
def DECtalkVoiceCount : Int := 9

/-! ## SSML extractor (dectalk_extract_text_from_ssml, lines 328-420)

The C function scans a NUL-terminated byte string; we model the input as a
`List Char` (C strings contain no NUL, so list exhaustion models the
terminator).  The output buffer is modelled by the list of characters the
function writes: the pair returned by the model is (return value, `some`
of the bytes stored at positions 0.. — the extracted text followed by the
NUL terminator), with `none` meaning the function wrote nothing at all. -/

/-- C `isspace` in the default locale: the whitespace characters skipped by
`sscanf` before a `%d` conversion. -/
def isCSpace (c : Char) : Bool :=
  c = ' ' || c = '\t' || c = '\n' || c = '\x0b' || c = '\x0c' || c = '\r'

/-- Decimal value of a run of digit characters. -/
def digitsVal (l : List Char) : Nat :=
  l.foldl (fun n c => 10 * n + (c.toNat - 48)) 0

/-- A `%d` conversion needs at least one digit; this parses the maximal
digit run at the head of the input. -/
def parseDigits (l : List Char) : Option Nat :=
  let ds := l.takeWhile Char.isDigit
  if ds.isEmpty then none else some (digitsVal ds)

/-- Model of `sscanf(s, "%d", &code) == 1` together with the value stored:
skip C whitespace, an optional sign, then at least one decimal digit. -/
def scanfD (l : List Char) : Option Int :=
  match l.dropWhile isCSpace with
  | '-' :: r => (parseDigits r).map (fun n => -(n : Int))
  | '+' :: r => (parseDigits r).map (fun n => (n : Int))
  | l1 => (parseDigits l1).map (fun n => (n : Int))

/-- Entity handling at a scan position whose character is `&`, mirroring the
`strncmp` chain and the generic `&#NNN;` branch of
`dectalk_extract_text_from_ssml` (lines 354-409).  Returns the character
written and the number of source characters consumed, or `none` when the C
code falls through to copying the `&` literally (one character consumed by
the generic `src++`). -/
def entityAt (src : List Char) : Option (Char × Nat) :=
  if ("&amp;".toList).isPrefixOf src then some ('&', 5)
  else if ("&lt;".toList).isPrefixOf src then some ('<', 4)
  else if ("&gt;".toList).isPrefixOf src then some ('>', 4)
  else if ("&quot;".toList).isPrefixOf src then some ('"', 6)
  else if ("&apos;".toList).isPrefixOf src then some ('\'', 6)
  else if ("&#91;".toList).isPrefixOf src then some ('[', 5)
  else if ("&#93;".toList).isPrefixOf src then some (']', 5)
  else if ("&#58;".toList).isPrefixOf src then some (':', 5)
  else
    match src with
    | '&' :: '#' :: _ =>
      match src.findIdx? (fun c => c = ';') with
      | some j =>
        if j < 8 then
          match scanfD (src.drop 2) with
          | some code =>
            if 0 < code ∧ code < 256 then some (Char.ofNat code.toNat, j + 1)
            else none
          | none => none
        else none
      | none => none
    | _ => none

/-- One iteration of the scanning loop of `dectalk_extract_text_from_ssml`
(lines 338-416): given the remaining input and the `inTag` flag, returns
(source characters consumed, new `inTag`, characters written this
iteration — zero or one of them). -/
def ssmlStep (src : List Char) (inTag : Bool) : Nat × Bool × List Char :=
  match src with
  | [] => (0, inTag, [])
  | c :: _ =>
    if c = '<' then (1, true, [])
    else if c = '>' then (1, false, [])
    else if inTag then (1, inTag, [])
    else if c = '&' then
      match entityAt src with
      | some p => (p.2, inTag, [p.1])
      | none => (1, inTag, [c])
    else (1, inTag, [c])

/-- Fuel-indexed form of the scanning loop: `fuel` bounds the number of
iterations (one unit per iteration; `src.length` units always suffice
because every iteration consumes at least one source character), `budget`
is `maxLength - 1 - written`, the number of characters the loop may still
write.  Returns the characters written. -/
def ssmlScanF : Nat → List Char → Bool → Nat → List Char
  | 0, _, _, _ => []
  | _ + 1, [], _, _ => []
  | _ + 1, _ :: _, _, 0 => []
  | fuel + 1, c :: rest, inTag, budget + 1 =>
    let s := ssmlStep (c :: rest) inTag
    s.2.2 ++ ssmlScanF fuel ((c :: rest).drop s.1) s.2.1 (budget + 1 - s.2.2.length)

/-- The scanning loop of `dectalk_extract_text_from_ssml`, run to
completion on `src` with `budget = maxLength - 1` write slots. -/
def ssmlScan (src : List Char) (inTag : Bool) (budget : Nat) : List Char :=
  ssmlScanF src.length src inTag budget

/-- `dectalk_extract_text_from_ssml` (lines 328-420).  `ssml = none` models a
NULL input pointer and `plainTextNull` a NULL output pointer.  The result is
(return value, contents written to the output buffer): `none` means nothing
was written (the guard returned early), `some bytes` means `bytes` were
stored starting at the buffer's first position — the extracted text followed
by the NUL terminator. -/
def dectalk_extract_text_from_ssml (ssml : Option (List Char))
    (plainTextNull : Bool) (maxLength : Int) : Int × Option (List Char) :=
  if ssml = none ∨ plainTextNull = true ∨ maxLength ≤ 0 then (0, none)
  else
    let out := ssmlScan (ssml.getD []) false (maxLength - 1).toNat
    ((out.length : Int), some (out ++ [Char.ofNat 0]))

/-! ## Mirror of the spec's wording for the extractor (claim C3)

Two independent formalisations of §4.4 of the spec, used to compare the
code against the spec's words.  The first follows the spec sentence as
written: the eight listed entities decode, and a generic numeric entity is
the exact shape `&#NNN;` — `&`, `#`, decimal digits, `;` — with
`0 < NNN < 256` and the `;` within 8 characters; anything else after `&`
is emitted literally.  The second is the amended reading forced by the
code: the numeric value is parsed by `sscanf %d` rules (leading C
whitespace and an optional sign are accepted, and any characters between
the parsed digits and the first `;` are swallowed). -/

/-- First entity of the table whose text occurs at the scan position:
decodes to its replacement character, consuming the entity's length. -/
def lookupEntity : List (List Char × Char) → List Char → Option (Char × Nat)
  | [], _ => none
  | (key, ch) :: rest, src =>
    if key <+: src then some (ch, key.length) else lookupEntity rest src

/-- The entity table of spec §4.4: five named entities and the three
synthesis-control numeric entities. -/
def specNamedEntities : List (List Char × Char) :=
  [("&amp;".toList, '&'), ("&lt;".toList, '<'), ("&gt;".toList, '>'),
   ("&quot;".toList, '"'), ("&apos;".toList, '\''), ("&#91;".toList, '['),
   ("&#93;".toList, ']'), ("&#58;".toList, ':')]

/-- Spec §4.4 as written: a generic numeric entity is `&#` followed by
decimal digits followed by `;`, the `;` within 8 characters of the `&`,
decoding to the digits' value when `0 < NNN < 256`. -/
def specNumericEntity (src : List Char) : Option (Char × Nat) :=
  match src with
  | '&' :: '#' :: rest =>
    let ds := rest.takeWhile Char.isDigit
    if ds.isEmpty then none
    else
      match rest.drop ds.length with
      | ';' :: _ =>
        if 2 + ds.length < 8 ∧ 0 < digitsVal ds ∧ digitsVal ds < 256 then
          some (Char.ofNat (digitsVal ds), ds.length + 3)
        else none
      | _ => none
  | _ => none

/-- Entity decoding per the spec's words: the listed entities, then the
strict `&#NNN;` numeric rule; `none` means the `&` is emitted literally. -/
def specEntityAt (src : List Char) : Option (Char × Nat) :=
  match lookupEntity specNamedEntities src with
  | some p => some p
  | none => specNumericEntity src

/-- One scan iteration per the spec's words (tag stripping identical to the
code; only entity decoding differs). -/
def specStep (src : List Char) (inTag : Bool) : Nat × Bool × List Char :=
  match src with
  | [] => (0, inTag, [])
  | c :: _ =>
    if c = '<' then (1, true, [])
    else if c = '>' then (1, false, [])
    else if inTag then (1, inTag, [])
    else if c = '&' then
      match specEntityAt src with
      | some p => (p.2, inTag, [p.1])
      | none => (1, inTag, [c])
    else (1, inTag, [c])

/-- Scan loop per the spec's words, fuel-indexed like `ssmlScanF`. -/
def specScanF : Nat → List Char → Bool → Nat → List Char
  | 0, _, _, _ => []
  | _ + 1, [], _, _ => []
  | _ + 1, _ :: _, _, 0 => []
  | fuel + 1, c :: rest, inTag, budget + 1 =>
    let s := specStep (c :: rest) inTag
    s.2.2 ++ specScanF fuel ((c :: rest).drop s.1) s.2.1 (budget + 1 - s.2.2.length)

/-- The extractor as the spec's words describe it (claim C3 as stated). -/
def ssmlExtractSpec (ssml : Option (List Char)) (plainTextNull : Bool)
    (maxLength : Int) : Int × Option (List Char) :=
  if ssml = none ∨ plainTextNull = true ∨ maxLength ≤ 0 then (0, none)
  else
    let src := ssml.getD []
    let out := specScanF src.length src false (maxLength - 1).toNat
    ((out.length : Int), some (out ++ [Char.ofNat 0]))

/-- The five named entities of spec §4.4 (amended reading: the three
control entities `&#91; &#93; &#58;` are instances of the numeric rule). -/
def specNamedEntitiesA : List (List Char × Char) :=
  [("&amp;".toList, '&'), ("&lt;".toList, '<'), ("&gt;".toList, '>'),
   ("&quot;".toList, '"'), ("&apos;".toList, '\'')]

/-- Amended numeric-entity rule: at `&#`, when the first `;` lies within 8
characters of the `&` and the text after `&#` parses under `sscanf %d`
rules to a value in `(0, 256)`, decode to that character code and consume
through the `;`. -/
def specNumericEntityA (src : List Char) : Option (Char × Nat) :=
  match src with
  | '&' :: '#' :: _ =>
    match src.findIdx? (fun c => c = ';') with
    | some j =>
      if j < 8 then
        match scanfD (src.drop 2) with
        | some code =>
          if 0 < code ∧ code < 256 then some (Char.ofNat code.toNat, j + 1)
          else none
        | none => none
      else none
    | none => none
  | _ => none

/-- Entity decoding per the amended spec wording. -/
def specEntityAtA (src : List Char) : Option (Char × Nat) :=
  match lookupEntity specNamedEntitiesA src with
  | some p => some p
  | none => specNumericEntityA src

/-- One scan iteration per the amended spec wording. -/
def specStepA (src : List Char) (inTag : Bool) : Nat × Bool × List Char :=
  match src with
  | [] => (0, inTag, [])
  | c :: _ =>
    if c = '<' then (1, true, [])
    else if c = '>' then (1, false, [])
    else if inTag then (1, inTag, [])
    else if c = '&' then
      match specEntityAtA src with
      | some p => (p.2, inTag, [p.1])
      | none => (1, inTag, [c])
    else (1, inTag, [c])

/-- Scan loop per the amended spec wording, fuel-indexed. -/
def specScanFA : Nat → List Char → Bool → Nat → List Char
  | 0, _, _, _ => []
  | _ + 1, [], _, _ => []
  | _ + 1, _ :: _, _, 0 => []
  | fuel + 1, c :: rest, inTag, budget + 1 =>
    let s := specStepA (c :: rest) inTag
    s.2.2 ++ specScanFA fuel ((c :: rest).drop s.1) s.2.1 (budget + 1 - s.2.2.length)

/-- The extractor as the amended spec wording describes it. -/
def ssmlExtractSpecA (ssml : Option (List Char)) (plainTextNull : Bool)
    (maxLength : Int) : Int × Option (List Char) :=
  if ssml = none ∨ plainTextNull = true ∨ maxLength ≤ 0 then (0, none)
  else
    let src := ssml.getD []
    let out := specScanFA src.length src false (maxLength - 1).toNat
    ((out.length : Int), some (out ++ [Char.ofNat 0]))

/-! ## Session state and the engine oracle

`BridgeState` packages the file-static mutable state of DECtalkBridge.c:
`g_initialized`, `g_inMemoryOpen`, `g_ttsHandle` (modelled as the Boolean
"handle is non-NULL"), `g_currentVoice`, and the output-sink triple
`g_outputBuffer` / `g_outputBufferSize` / `g_outputSamplesWritten`
(the buffer pointer is modelled as `Option Nat`, an identity tag for the
caller's buffer, `none` meaning NULL).  `engineRate` models the rate
register inside the trusted engine: `TextToSpeechSetRate` stores into it
and `TextToSpeechGetRate` reads it back (engine contract; the engine
itself is an external dependency, not code of this repository). -/

structure BridgeState where
  initialized : Bool
  inMemoryOpen : Bool
  ttsHandle : Bool
  currentVoice : Int
  outputBuffer : Option Nat
  outputBufferSize : Int
  outputSamplesWritten : Int
  engineRate : Int
deriving DecidableEq, Repr

/-- The state at process start: everything zero / NULL / false, voice Paul. -/
def initialBridgeState : BridgeState :=
  { initialized := false, inMemoryOpen := false, ttsHandle := false,
    currentVoice := 0, outputBuffer := none, outputBufferSize := 0,
    outputSamplesWritten := 0, engineRate := 0 }

/-- Oracle inputs describing one run of the external engine during a
`dectalk_synthesize` call: whether each fallible external step succeeds,
and the filled byte lengths of the audio chunks the engine delivers — via
the fill callback during `TextToSpeechSpeak`/`TextToSpeechSync`, and via
`TextToSpeechReturnBuffer` during the post-completion drain. -/
structure EngineRun where
  startupOk : Bool
  openOk : Bool
  mallocOk : Bool
  speakOk : Bool
  fills : List Nat
  drains : List Nat
deriving DecidableEq, Repr

/-- `dectalk_init` (lines 127-172): idempotent on an initialized session;
otherwise the startup either succeeds (handle set, voice reset to Paul) or
fails with `DECtalkErrorInitFailed` leaving the state unchanged.
`startupOk` is the oracle outcome of `TextToSpeechStartupExFonix`. -/
def dectalk_init (startupOk : Bool) (st : BridgeState) : Int × BridgeState :=
  if st.initialized then (DECtalkErrorNone, st)
  else if startupOk then
    (DECtalkErrorNone,
      { st with initialized := true, ttsHandle := true, currentVoice := 0 })
  else (DECtalkErrorInitFailed, st)

/-- `dectalk_shutdown` (lines 174-188): releases the engine handle only when
the session is initialized and the handle is non-NULL; the Boolean result
records whether `TextToSpeechShutdown` was called (the handle released). -/
def dectalk_shutdown (st : BridgeState) : BridgeState × Bool :=
  if st.initialized ∧ st.ttsHandle then
    ({ st with inMemoryOpen := false, ttsHandle := false, initialized := false },
      true)
  else (st, false)

/-- `dectalk_set_voice` (lines 190-202): rejects ids outside
`[0, DECtalkVoiceCount)`, otherwise stores the id (and pushes it to the
engine when a session is live — an engine effect with no bridge-state
component). -/
def dectalk_set_voice (st : BridgeState) (voice : Int) : Int × BridgeState :=
  if voice < 0 ∨ DECtalkVoiceCount ≤ voice then (DECtalkErrorInvalidVoice, st)
  else (DECtalkErrorNone, { st with currentVoice := voice })

/-- `dectalk_get_voice` (lines 204-206). -/
def dectalk_get_voice (st : BridgeState) : Int :=
  st.currentVoice

/-! ## The capture protocol: clamp-and-copy into the output sink -/

/-- The clamp-and-copy used by both the fill callback (lines 72-84) and the
post-completion drain (lines 280-292): `bytes / 2` samples are available,
the copy is clamped to `cap - written`, and nothing happens when the clamped
count is not positive.  Returns the new written count. -/
def sinkCopy (cap written : Int) (bytes : Nat) : Int :=
  let samplesToWrite : Int := ((bytes / 2 : Nat) : Int)
  let remainingSpace : Int := cap - written
  let s := if samplesToWrite > remainingSpace then remainingSpace else samplesToWrite
  if s > 0 then written + s else written

/-- `ttsCallback` on a `TTS_MSG_BUFFER` message (lines 66-91): when the
chunk's filled length is nonzero and an output sink is installed, the chunk
is clamp-copied and re-queued with `TextToSpeechAddBuffer`; otherwise
nothing happens (and the chunk is not re-queued).  Returns the new written
count and whether the chunk was re-queued. -/
def ttsCallback (sink : Option Nat) (cap written : Int) (bytes : Nat) :
    Int × Bool :=
  if 0 < bytes ∧ sink.isSome then (sinkCopy cap written bytes, true)
  else (written, false)

/-- One iteration of the post-completion drain loop (lines 278-295): a
returned chunk with nonzero length is clamp-copied into the sink. -/
def drainCopy (cap written : Int) (bytes : Nat) : Int :=
  if 0 < bytes then sinkCopy cap written bytes else written

/-- A copy event against the installed sink: a fill-callback notification or
an explicit post-completion drain iteration, carrying the chunk's filled
byte length. -/
inductive SinkStep where
  | fill (bytes : Nat)
  | drain (bytes : Nat)
deriving DecidableEq, Repr

/-- Written-count effect of one copy event. -/
def stepWritten (sink : Option Nat) (cap written : Int) : SinkStep → Int
  | .fill b => (ttsCallback sink cap written b).1
  | .drain b => drainCopy cap written b

/-- Written count after a sequence of copy events. -/
def runSteps (sink : Option Nat) (cap written : Int) : List SinkStep → Int
  | [] => written
  | s :: rest => runSteps sink cap (stepWritten sink cap written s) rest

/-- `dectalk_synthesize` (lines 208-303), with the engine's behaviour given
by `env`.  `textNull` and `swNull` model NULL `text` / `samplesWritten`
pointers, `buffer` the output-buffer pointer (`none` = NULL), and `swPrior`
the value stored at `*samplesWritten` before the call.  The result carries
the return code, the bridge state after the call, and the value stored at
`*samplesWritten` after the call (equal to `swPrior` whenever the code did
not write through the pointer). -/
def dectalk_synthesize (env : EngineRun) (st0 : BridgeState) (textNull : Bool)
    (buffer : Option Nat) (bufferSize : Int) (swNull : Bool) (swPrior : Int) :
    Int × BridgeState × Int :=
  let initRes := if st0.initialized then (DECtalkErrorNone, st0)
                 else dectalk_init env.startupOk st0
  if initRes.1 ≠ DECtalkErrorNone then (initRes.1, initRes.2, swPrior)
  else
    let st1 := initRes.2
    if textNull ∨ buffer = none ∨ swNull then
      (DECtalkErrorSynthFailed, st1, swPrior)
    else
      let st2 := { st1 with outputBuffer := buffer,
                            outputBufferSize := bufferSize,
                            outputSamplesWritten := 0 }
      if ¬st2.inMemoryOpen ∧ ¬env.openOk then
        (DECtalkErrorSynthFailed, st2, swPrior)
      else
        let st3 := { st2 with inMemoryOpen := true }
        if ¬env.mallocOk then (DECtalkErrorSynthFailed, st3, swPrior)
        else if ¬env.speakOk then (DECtalkErrorSynthFailed, st3, swPrior)
        else
          let w := runSteps buffer bufferSize 0
            (env.fills.map SinkStep.fill ++ env.drains.map SinkStep.drain)
          (DECtalkErrorNone, { st3 with outputSamplesWritten := w }, w)

/-- `dectalk_set_rate` (lines 463-471): no-op returning `-1` when no session
is live; otherwise the rate is clamped to `[75, 600]` and sent to the
engine (`setRateOk` is the engine's acceptance; on success the engine's rate
register holds the clamped value). -/
def dectalk_set_rate (setRateOk : Bool) (st : BridgeState) (wpm : Int) :
    Int × BridgeState :=
  if st.initialized ∧ st.ttsHandle then
    let w1 := if wpm < 75 then 75 else wpm
    let w2 := if w1 > 600 then 600 else w1
    if setRateOk then (0, { st with engineRate := w2 }) else (-1, st)
  else (-1, st)

/-- `dectalk_get_rate` (lines 473-481): queries the engine's rate register
when a session is live and the query succeeds; otherwise returns the fixed
default 180. -/
def dectalk_get_rate (getRateOk : Bool) (st : BridgeState) : Int :=
  if st.initialized ∧ st.ttsHandle then
    if getRateOk then st.engineRate else 180
  else 180

/-! ## Basic facts about the extractor -/

set_option maxHeartbeats 2000000 in
/-- Every successful entity decode consumes at least one source character
(in fact at least four; the generic branch consumes `j + 1 ≥ 1`). -/
theorem entityAt_consumes (src : List Char) (p : Char × Nat)
    (h : entityAt src = some p) : 1 ≤ p.2 := by
  unfold entityAt at h
  split_ifs at h
  any_goals (injection h with h; subst h; decide)
  revert h
  split
  · split
    · split
      · split
        · split
          · intro h
            injection h with h
            subst h
            exact Nat.succ_le_succ (Nat.zero_le _)
          · intro h; cases h
        · intro h; cases h
      · intro h; cases h
    · intro h; cases h
  · intro h; cases h

/-- Every loop iteration on a nonempty remainder advances the source
position by at least one character. -/
theorem ssmlStep_consumes (src : List Char) (inTag : Bool)
    (h : src ≠ []) : 1 ≤ (ssmlStep src inTag).1 := by
  match src with
  | [] => exact absurd rfl h
  | c :: rest =>
    simp only [ssmlStep]
    split_ifs <;> try exact Nat.le_refl 1
    split
    · rename_i p hp
      exact entityAt_consumes _ p hp
    · exact Nat.le_refl 1

/-- Each iteration writes at most one character. -/
theorem ssmlStep_emits (src : List Char) (inTag : Bool) :
    (ssmlStep src inTag).2.2.length ≤ 1 := by
  match src with
  | [] => exact Nat.zero_le 1
  | c :: rest =>
    simp only [ssmlStep]
    split_ifs <;> try exact Nat.le_refl 1
    · exact Nat.zero_le 1
    · exact Nat.zero_le 1
    · exact Nat.zero_le 1
    · split
      · exact Nat.le_refl 1
      · exact Nat.le_refl 1

/-- The scan never writes more characters than its budget allows. -/
theorem ssmlScanF_length (fuel : Nat) :
    ∀ (src : List Char) (inTag : Bool) (budget : Nat),
      (ssmlScanF fuel src inTag budget).length ≤ budget := by
  induction fuel with
  | zero => intro src inTag budget; simp [ssmlScanF]
  | succ n ih =>
    intro src inTag budget
    match src, budget with
    | [], _ => simp [ssmlScanF]
    | _ :: _, 0 => simp [ssmlScanF]
    | c :: rest, b + 1 =>
      simp only [ssmlScanF, List.length_append]
      have h1 := ssmlStep_emits (c :: rest) inTag
      have h2 := ih ((c :: rest).drop (ssmlStep (c :: rest) inTag).1)
        (ssmlStep (c :: rest) inTag).2.1
        (b + 1 - (ssmlStep (c :: rest) inTag).2.2.length)
      omega

/-- The empty remainder scans to nothing, whatever the fuel. -/
theorem ssmlScanF_nil (fuel : Nat) (inTag : Bool) (budget : Nat) :
    ssmlScanF fuel [] inTag budget = [] := by
  cases fuel <;> rfl

/-- Any fuel of at least `src.length` yields the same scan result: the loop
terminates within `src.length` iterations because each iteration consumes at
least one source character. -/
theorem ssmlScanF_fuel (fuel : Nat) :
    ∀ (fuel2 : Nat) (src : List Char) (inTag : Bool) (budget : Nat),
      src.length ≤ fuel → src.length ≤ fuel2 →
      ssmlScanF fuel src inTag budget = ssmlScanF fuel2 src inTag budget := by
  induction fuel with
  | zero =>
    intro fuel2 src inTag budget h1 h2
    have : src = [] := List.length_eq_zero.mp (Nat.le_zero.mp h1)
    subst this
    rw [ssmlScanF_nil, ssmlScanF_nil]
  | succ n ih =>
    intro fuel2 src inTag budget h1 h2
    match src, fuel2, budget with
    | [], f2, b => rw [ssmlScanF_nil, ssmlScanF_nil]
    | c :: rest, 0, b => simp at h2
    | c :: rest, f2 + 1, 0 => rfl
    | c :: rest, f2 + 1, b + 1 =>
      simp only [ssmlScanF]
      have hcons := ssmlStep_consumes (c :: rest) inTag (by simp)
      have hlen : ((c :: rest).drop (ssmlStep (c :: rest) inTag).1).length
          ≤ (c :: rest).length - 1 := by
        rw [List.length_drop]
        omega
      simp only [List.length_cons] at h1 h2
      have := ih f2 ((c :: rest).drop (ssmlStep (c :: rest) inTag).1)
        (ssmlStep (c :: rest) inTag).2.1
        (b + 1 - (ssmlStep (c :: rest) inTag).2.2.length)
        (by simp only [List.length_cons] at hlen; omega)
        (by simp only [List.length_cons] at hlen; omega)
      rw [this]

/-! ## Facts about the capture protocol -/

/-- The clamp-and-copy advances the written count by exactly
`min(available samples, remaining capacity)` whenever `written ≤ cap`. -/
theorem sinkCopy_min (cap w : Int) (b : Nat) (h : w ≤ cap) :
    sinkCopy cap w b = w + min ((b / 2 : Nat) : Int) (cap - w) := by
  simp only [sinkCopy]
  split_ifs <;> omega

/-- The clamp-and-copy keeps the written count within `[0, max cap 0]`. -/
theorem sinkCopy_bounds (cap w : Int) (b : Nat) (h0 : 0 ≤ w)
    (h1 : w ≤ max cap 0) : 0 ≤ sinkCopy cap w b ∧ sinkCopy cap w b ≤ max cap 0 := by
  simp only [sinkCopy]
  split_ifs <;> omega

/-- Each copy event keeps the written count within `[0, max cap 0]`. -/
theorem stepWritten_bounds (sink : Option Nat) (cap w : Int) (s : SinkStep)
    (h0 : 0 ≤ w) (h1 : w ≤ max cap 0) :
    0 ≤ stepWritten sink cap w s ∧ stepWritten sink cap w s ≤ max cap 0 := by
  cases s with
  | fill b =>
    simp only [stepWritten, ttsCallback]
    split_ifs
    · exact sinkCopy_bounds cap w b h0 h1
    · exact ⟨h0, h1⟩
  | drain b =>
    simp only [stepWritten, drainCopy]
    split_ifs
    · exact sinkCopy_bounds cap w b h0 h1
    · exact ⟨h0, h1⟩

/-- A sequence of copy events keeps the written count within `[0, max cap 0]`. -/
theorem runSteps_bounds (sink : Option Nat) (cap : Int) (l : List SinkStep) :
    ∀ w : Int, 0 ≤ w → w ≤ max cap 0 →
      0 ≤ runSteps sink cap w l ∧ runSteps sink cap w l ≤ max cap 0 := by
  induction l with
  | nil => intro w h0 h1; exact ⟨h0, h1⟩
  | cons s rest ih =>
    intro w h0 h1
    have hs := stepWritten_bounds sink cap w s h0 h1
    exact ih _ hs.1 hs.2

/-- C2: with a sink installed, each fill-callback notification and each
post-completion drain iteration advances the written count by exactly
`min(filled samples, capacity - written)` — copying nothing when no capacity
remains while the callback still re-queues a nonempty chunk — and hence the
written count, starting from 0, never leaves `[0, capacity]` over any
sequence of fill and drain events, assuming the capacity is nonnegative. -/
theorem capture_protocol_invariant (sink : Option Nat) (cap w : Int)
    (b : Nat) (steps : List SinkStep) (hsink : sink.isSome = true)
    (h0 : 0 ≤ w) (hw : w ≤ cap) (hcap : 0 ≤ cap) :
    ((ttsCallback sink cap w b).1 = w + min ((b / 2 : Nat) : Int) (cap - w)
      ∧ (0 < b → (ttsCallback sink cap w b).2 = true)
      ∧ drainCopy cap w b = w + min ((b / 2 : Nat) : Int) (cap - w))
    ∧ (0 ≤ runSteps sink cap 0 steps ∧ runSteps sink cap 0 steps ≤ cap) := by
  have hmax : max cap 0 = cap := max_eq_left hcap
  refine ⟨⟨?_, ?_, ?_⟩, ?_⟩
  · simp only [ttsCallback]
    split_ifs with hc
    · exact sinkCopy_min cap w b hw
    · have hb : b = 0 := by
        rcases Nat.eq_zero_or_pos b with h | h
        · exact h
        · exact absurd ⟨h, hsink⟩ hc
      subst hb
      simp
      omega
  · intro hb
    simp only [ttsCallback]
    split_ifs with hc
    · rfl
    · exact absurd ⟨hb, hsink⟩ hc
  · simp only [drainCopy]
    split_ifs with hb
    · exact sinkCopy_min cap w b hw
    · have hb0 : b = 0 := by omega
      subst hb0
      simp
      omega
  · have := runSteps_bounds sink cap steps 0 le_rfl (by omega)
    omega

/-- Witness for `capture_protocol_invariant` at concrete inputs. -/
theorem capture_protocol_invariant_witness :
    ((ttsCallback (some 0) 5 2 7).1 = 2 + min (((7 : Nat) / 2 : Nat) : Int) (5 - 2)
      ∧ (0 < 7 → (ttsCallback (some 0) 5 2 7).2 = true)
      ∧ drainCopy 5 2 7 = 2 + min (((7 : Nat) / 2 : Nat) : Int) (5 - 2))
    ∧ (0 ≤ runSteps (some 0) 5 0 [SinkStep.fill 4, SinkStep.drain 20]
      ∧ runSteps (some 0) 5 0 [SinkStep.fill 4, SinkStep.drain 20] ≤ 5) :=
  capture_protocol_invariant (some 0) 5 2 7 [SinkStep.fill 4, SinkStep.drain 20]
    (by decide) (by decide) (by decide) (by decide)

/-- C4: `dectalk_set_voice` rejects every id outside `[0, DECtalkVoiceCount)`
with `DECtalkErrorInvalidVoice`, leaving `dectalk_get_voice` unchanged, and
accepts every id inside the range with `DECtalkErrorNone`, after which
`dectalk_get_voice` returns that id — regardless of the session state. -/
theorem dectalk_set_voice_spec (st : BridgeState) (v : Int) :
    ((v < 0 ∨ DECtalkVoiceCount ≤ v) →
      dectalk_set_voice st v = (DECtalkErrorInvalidVoice, st)
      ∧ dectalk_get_voice (dectalk_set_voice st v).2 = dectalk_get_voice st)
    ∧ (0 ≤ v → v < DECtalkVoiceCount →
      (dectalk_set_voice st v).1 = DECtalkErrorNone
      ∧ dectalk_get_voice (dectalk_set_voice st v).2 = v) := by
  constructor
  · intro h
    simp [dectalk_set_voice, h]
  · intro h1 h2
    have h : ¬(v < 0 ∨ DECtalkVoiceCount ≤ v) := by
      push_neg
      exact ⟨h1, h2⟩
    simp [dectalk_set_voice, h, dectalk_get_voice]

/-- Witness for `dectalk_set_voice_spec`: id 42 is rejected with the voice
unchanged, id 3 is accepted and readable back. -/
theorem dectalk_set_voice_spec_witness :
    (dectalk_set_voice initialBridgeState 42
        = (DECtalkErrorInvalidVoice, initialBridgeState)
      ∧ dectalk_get_voice (dectalk_set_voice initialBridgeState 42).2
        = dectalk_get_voice initialBridgeState)
    ∧ ((dectalk_set_voice initialBridgeState 3).1 = DECtalkErrorNone
      ∧ dectalk_get_voice (dectalk_set_voice initialBridgeState 3).2 = 3) :=
  ⟨(dectalk_set_voice_spec initialBridgeState 42).1 (by decide),
   (dectalk_set_voice_spec initialBridgeState 3).2 (by decide) (by decide)⟩

/-- C5: `dectalk_init` on an already-initialized session returns success with
the state unchanged; `dectalk_shutdown` on a never-initialized session is a
no-op releasing nothing; and a second `dectalk_shutdown` after a first one
changes nothing and never releases the handle a second time. -/
theorem lifecycle_idempotent (startupOk : Bool) (st : BridgeState) :
    (st.initialized = true →
        dectalk_init startupOk st = (DECtalkErrorNone, st))
    ∧ (st.initialized = false → dectalk_shutdown st = (st, false))
    ∧ dectalk_shutdown (dectalk_shutdown st).1
        = ((dectalk_shutdown st).1, false) := by
  refine ⟨?_, ?_, ?_⟩
  · intro h
    simp [dectalk_init, h]
  · intro h
    simp [dectalk_shutdown, h]
  · by_cases h : st.initialized = true ∧ st.ttsHandle = true
    · simp [dectalk_shutdown, h]
    · simp only [dectalk_shutdown, if_neg h]

/-- Witness for `lifecycle_idempotent` on a live session. -/
theorem lifecycle_idempotent_witness :
    dectalk_init true
        { initialBridgeState with initialized := true, ttsHandle := true }
      = (DECtalkErrorNone,
        { initialBridgeState with initialized := true, ttsHandle := true })
    ∧ dectalk_shutdown initialBridgeState = (initialBridgeState, false)
    ∧ dectalk_shutdown
        (dectalk_shutdown
          { initialBridgeState with initialized := true, ttsHandle := true }).1
      = ((dectalk_shutdown
          { initialBridgeState with initialized := true, ttsHandle := true }).1,
        false) :=
  ⟨(lifecycle_idempotent true
      { initialBridgeState with initialized := true, ttsHandle := true }).1 rfl,
   (lifecycle_idempotent true initialBridgeState).2.1 rfl,
   (lifecycle_idempotent true
      { initialBridgeState with initialized := true, ttsHandle := true }).2.2⟩

/-- C6: on a live session (and an engine honouring its set/get contract),
`dectalk_get_rate` immediately after `dectalk_set_rate wpm` returns
`clamp(wpm, 75, 600)` — the value sent onward is the clamp — and with no live
session `dectalk_get_rate` returns the fixed default 180 while
`dectalk_set_rate` is a failing no-op. -/
theorem rate_clamp_spec (st : BridgeState) (wpm : Int) :
    (st.initialized = true ∧ st.ttsHandle = true →
      dectalk_get_rate true (dectalk_set_rate true st wpm).2
        = min (max wpm 75) 600)
    ∧ (¬(st.initialized = true ∧ st.ttsHandle = true) →
      dectalk_get_rate true st = 180
      ∧ dectalk_set_rate true st wpm = (-1, st)) := by
  constructor
  · intro h
    obtain ⟨h1, h2⟩ := h
    simp [dectalk_set_rate, dectalk_get_rate, h1, h2]
    split_ifs <;> omega
  · intro h
    simp [dectalk_get_rate, dectalk_set_rate, h]

/-- Witness for `rate_clamp_spec`: 1000 wpm clamps to 600 on a live session;
the fresh state answers the 180 default. -/
theorem rate_clamp_spec_witness :
    dectalk_get_rate true
        (dectalk_set_rate true
          { initialBridgeState with initialized := true, ttsHandle := true }
          1000).2
      = min (max (1000 : Int) 75) 600
    ∧ (dectalk_get_rate true initialBridgeState = 180
      ∧ dectalk_set_rate true initialBridgeState 1000
        = (-1, initialBridgeState)) :=
  ⟨(rate_clamp_spec
      { initialBridgeState with initialized := true, ttsHandle := true }
      1000).1 (by decide),
   (rate_clamp_spec initialBridgeState 1000).2 (by decide)⟩

/-- C10: with a NULL input pointer, a NULL output pointer, or a nonpositive
`maxLength`, `dectalk_extract_text_from_ssml` returns 0 and writes nothing
to the output buffer, not even a terminator. -/
theorem extract_ssml_null_guard (ssml : Option (List Char)) (ptn : Bool)
    (m : Int) (h : ssml = none ∨ ptn = true ∨ m ≤ 0) :
    dectalk_extract_text_from_ssml ssml ptn m = (0, none) := by
  simp only [dectalk_extract_text_from_ssml]
  rw [if_pos h]

/-- Witness for `extract_ssml_null_guard` at a NULL input pointer. -/
theorem extract_ssml_null_guard_witness :
    dectalk_extract_text_from_ssml none false 5 = (0, none) :=
  extract_ssml_null_guard none false 5 (Or.inl rfl)

/-- C7: for every input string and `maxLength > 0`, the extractor writes at
most `maxLength - 1` characters followed by one NUL terminator placed
immediately after them, and returns the number of characters written
excluding the terminator. -/
theorem extract_ssml_output_bounded (s : List Char) (m : Int) (hm : 0 < m) :
    ∃ out : List Char,
      dectalk_extract_text_from_ssml (some s) false m
          = ((out.length : Int), some (out ++ [Char.ofNat 0]))
      ∧ (out.length : Int) ≤ m - 1 := by
  refine ⟨ssmlScan s false (m - 1).toNat, ?_, ?_⟩
  · have hg : ¬(some s = none ∨ false = true ∨ m ≤ 0) := by
      push_neg
      refine ⟨by simp, by simp, by omega⟩
    simp only [dectalk_extract_text_from_ssml, if_neg hg, Option.getD_some]
  · have h := ssmlScanF_length s.length s false (m - 1).toNat
    have h2 : ((m - 1).toNat : Int) = m - 1 := Int.toNat_of_nonneg (by omega)
    simp only [ssmlScan]
    omega

/-- Witness for `extract_ssml_output_bounded` on a small input. -/
theorem extract_ssml_output_bounded_witness :
    ∃ out : List Char,
      dectalk_extract_text_from_ssml (some ("<a>hi</a>".toList)) false 10
          = ((out.length : Int), some (out ++ [Char.ofNat 0]))
      ∧ (out.length : Int) ≤ 10 - 1 :=
  extract_ssml_output_bounded ("<a>hi</a>".toList) 10 (by decide)

/-- C8: the scan advances its input position by at least one character on
every loop iteration (whatever the branch, including the malformed
numeric-entity fallback, which consumes the `&` it copies), and therefore
the extraction terminates on every finite input: `src.length` iterations of
fuel always suffice, the result being independent of any larger fuel. -/
theorem ssml_scan_advances (src : List Char) (inTag : Bool)
    (fuel fuel2 budget : Nat) (hsrc : src ≠ [])
    (h1 : src.length ≤ fuel) (h2 : src.length ≤ fuel2) :
    1 ≤ (ssmlStep src inTag).1
    ∧ ssmlScanF fuel src inTag budget = ssmlScanF fuel2 src inTag budget :=
  ⟨ssmlStep_consumes src inTag hsrc, ssmlScanF_fuel fuel fuel2 src inTag budget h1 h2⟩

/-- Witness for `ssml_scan_advances` at the malformed-numeric-entity input
`&#zz;x` (its decode fails, yet the iteration still consumes the `&`). -/
theorem ssml_scan_advances_witness :
    1 ≤ (ssmlStep ("&#zz;x".toList) false).1
    ∧ ssmlScanF 6 ("&#zz;x".toList) false 99
        = ssmlScanF 50 ("&#zz;x".toList) false 99 :=
  ssml_scan_advances ("&#zz;x".toList) false 6 50 99 (by decide) (by decide)
    (by decide)

/-- C1 as stated fails at a negative `bufferSize`: with every engine step
succeeding and no audio produced, the call returns `DECtalkErrorNone` and
stores 0 into `*samplesWritten`, but `0 ≤ *samplesWritten ≤ bufferSize` is
false for `bufferSize = -1`. -/
theorem synthesize_bounds_cex :
    (dectalk_synthesize ⟨true, true, true, true, [], []⟩ initialBridgeState
        false (some 0) (-1) false 7).1 = DECtalkErrorNone
    ∧ ¬((dectalk_synthesize ⟨true, true, true, true, [], []⟩ initialBridgeState
        false (some 0) (-1) false 7).2.2 ≤ -1) := by decide

/-- C1 (amended: the upper bound is `max bufferSize 0`, since a negative
capacity still yields success with 0 samples): every `dectalk_synthesize`
call either returns `DECtalkErrorNone` with
`0 ≤ *samplesWritten ≤ max bufferSize 0`, or returns
`DECtalkErrorInitFailed` or `DECtalkErrorSynthFailed` with `*samplesWritten`
holding its prior value. -/
theorem synthesize_result_bounds (env : EngineRun) (st0 : BridgeState)
    (textNull : Bool) (buffer : Option Nat) (bufferSize : Int)
    (swNull : Bool) (swPrior : Int) :
    ((dectalk_synthesize env st0 textNull buffer bufferSize swNull swPrior).1
        = DECtalkErrorNone
      ∧ 0 ≤ (dectalk_synthesize env st0 textNull buffer bufferSize swNull
          swPrior).2.2
      ∧ (dectalk_synthesize env st0 textNull buffer bufferSize swNull
          swPrior).2.2 ≤ max bufferSize 0)
    ∨ (((dectalk_synthesize env st0 textNull buffer bufferSize swNull
          swPrior).1 = DECtalkErrorInitFailed
        ∨ (dectalk_synthesize env st0 textNull buffer bufferSize swNull
          swPrior).1 = DECtalkErrorSynthFailed)
      ∧ (dectalk_synthesize env st0 textNull buffer bufferSize swNull
          swPrior).2.2 = swPrior) := by
  have hrun := runSteps_bounds buffer bufferSize
    (env.fills.map SinkStep.fill ++ env.drains.map SinkStep.drain) 0
    le_rfl (le_max_right _ _)
  simp only [dectalk_synthesize, dectalk_init]
  split_ifs <;>
    simp_all [DECtalkErrorNone, DECtalkErrorInitFailed, DECtalkErrorSynthFailed]

/-- C9 as stated fails: a successful `dectalk_synthesize` leaves the sink
installed — `g_outputBuffer` still points at the caller's buffer after the
call returns; it is never reset to NULL. -/
theorem synthesize_sink_cleared_cex :
    (dectalk_synthesize ⟨true, true, true, true, [2], [4]⟩ initialBridgeState
        false (some 5) 10 false 0).1 = DECtalkErrorNone
    ∧ (dectalk_synthesize ⟨true, true, true, true, [2], [4]⟩ initialBridgeState
        false (some 5) 10 false 0).2.1.outputBuffer ≠ none := by decide

/-- C9 (amended: the sink is installed over the caller's buffer before
submission but is NOT cleared after the post-completion drain — it remains
installed when the call returns, until the next call re-installs one): on
every successful call the final state's sink is the caller's buffer with the
given capacity, its written count is the capture-protocol fold of the fill
and drain events starting from 0, and that count is what was stored through
`samplesWritten`. -/
theorem synthesize_sink_retained (env : EngineRun) (st0 : BridgeState)
    (b : Nat) (cap swPrior : Int)
    (h : (dectalk_synthesize env st0 false (some b) cap false swPrior).1
      = DECtalkErrorNone) :
    (dectalk_synthesize env st0 false (some b) cap false swPrior).2.1.outputBuffer
        = some b
    ∧ (dectalk_synthesize env st0 false (some b) cap false
        swPrior).2.1.outputBufferSize = cap
    ∧ (dectalk_synthesize env st0 false (some b) cap false
        swPrior).2.1.outputSamplesWritten
      = runSteps (some b) cap 0
          (env.fills.map SinkStep.fill ++ env.drains.map SinkStep.drain)
    ∧ (dectalk_synthesize env st0 false (some b) cap false swPrior).2.2
      = (dectalk_synthesize env st0 false (some b) cap false
          swPrior).2.1.outputSamplesWritten := by
  simp only [dectalk_synthesize, dectalk_init] at h ⊢
  split_ifs at h ⊢ <;>
    simp_all [DECtalkErrorNone, DECtalkErrorInitFailed, DECtalkErrorSynthFailed]

/-- Witness for `synthesize_sink_retained` on a concrete successful run. -/
theorem synthesize_sink_retained_witness :
    (dectalk_synthesize ⟨true, true, true, true, [6], [8]⟩ initialBridgeState
        false (some 3) 4 false 9).2.1.outputBuffer = some 3
    ∧ (dectalk_synthesize ⟨true, true, true, true, [6], [8]⟩ initialBridgeState
        false (some 3) 4 false 9).2.1.outputBufferSize = 4
    ∧ (dectalk_synthesize ⟨true, true, true, true, [6], [8]⟩ initialBridgeState
        false (some 3) 4 false 9).2.1.outputSamplesWritten
      = runSteps (some 3) 4 0
          (([6] : List Nat).map SinkStep.fill ++ ([8] : List Nat).map SinkStep.drain)
    ∧ (dectalk_synthesize ⟨true, true, true, true, [6], [8]⟩ initialBridgeState
        false (some 3) 4 false 9).2.2
      = (dectalk_synthesize ⟨true, true, true, true, [6], [8]⟩ initialBridgeState
        false (some 3) 4 false 9).2.1.outputSamplesWritten :=
  synthesize_sink_retained ⟨true, true, true, true, [6], [8]⟩ initialBridgeState
    3 4 9 (by decide)

/-! ## The extractor against the spec's wording (claim C3) -/

set_option maxHeartbeats 4000000 in
/-- The amended spec reading of entity decoding coincides with the code's
`strncmp` chain: the three control entities are instances of the generic
numeric rule, and the named-entity table matches the first five branches. -/
theorem specEntityAtA_eq (src : List Char) : specEntityAtA src = entityAt src := by
  by_cases h1 : ['&', 'a', 'm', 'p', ';'] <+: src
  · simp [specEntityAtA, specNamedEntitiesA, lookupEntity, entityAt, h1]
  · by_cases h2 : ['&', 'l', 't', ';'] <+: src
    · simp [specEntityAtA, specNamedEntitiesA, lookupEntity, entityAt, h1, h2]
    · by_cases h3 : ['&', 'g', 't', ';'] <+: src
      · simp [specEntityAtA, specNamedEntitiesA, lookupEntity, entityAt, h1, h2, h3]
      · by_cases h4 : ['&', 'q', 'u', 'o', 't', ';'] <+: src
        · simp [specEntityAtA, specNamedEntitiesA, lookupEntity, entityAt,
            h1, h2, h3, h4]
        · by_cases h5 : ['&', 'a', 'p', 'o', 's', ';'] <+: src
          · simp [specEntityAtA, specNamedEntitiesA, lookupEntity, entityAt,
              h1, h2, h3, h4, h5]
          · by_cases h6 : ['&', '#', '9', '1', ';'] <+: src
            · obtain ⟨t, ht⟩ := h6
              subst ht
              simp [specEntityAtA, specNamedEntitiesA, lookupEntity, entityAt,
                h1, h2, h3, h4, h5, specNumericEntityA, List.findIdx?, scanfD,
                parseDigits, digitsVal, isCSpace, List.isPrefixOf]
            · by_cases h7 : ['&', '#', '9', '3', ';'] <+: src
              · obtain ⟨t, ht⟩ := h7
                subst ht
                simp [specEntityAtA, specNamedEntitiesA, lookupEntity, entityAt,
                  h1, h2, h3, h4, h5, h6, specNumericEntityA, List.findIdx?,
                  scanfD, parseDigits, digitsVal, isCSpace, List.isPrefixOf]
              · by_cases h8 : ['&', '#', '5', '8', ';'] <+: src
                · obtain ⟨t, ht⟩ := h8
                  subst ht
                  simp [specEntityAtA, specNamedEntitiesA, lookupEntity, entityAt,
                    h1, h2, h3, h4, h5, h6, h7, specNumericEntityA, List.findIdx?,
                    scanfD, parseDigits, digitsVal, isCSpace, List.isPrefixOf]
                · simp [specEntityAtA, specNamedEntitiesA, lookupEntity, entityAt,
                    h1, h2, h3, h4, h5, h6, h7, h8, specNumericEntityA]

/-- The amended spec scan iteration coincides with the code's iteration. -/
theorem specStepA_eq (src : List Char) (inTag : Bool) :
    specStepA src inTag = ssmlStep src inTag := by
  unfold specStepA ssmlStep
  rw [specEntityAtA_eq]

/-- The amended spec scan loop coincides with the code's loop. -/
theorem specScanFA_eq (fuel : Nat) :
    ∀ (src : List Char) (inTag : Bool) (budget : Nat),
      specScanFA fuel src inTag budget = ssmlScanF fuel src inTag budget := by
  induction fuel with
  | zero => intro src inTag budget; rfl
  | succ n ih =>
    intro src inTag budget
    match src, budget with
    | [], _ => rfl
    | _ :: _, 0 => rfl
    | c :: rest, b + 1 =>
      simp only [specScanFA, ssmlScanF, specStepA_eq, ih]

/-- C3 as stated fails on the input `&#65a;`: the spec's words class it as a
malformed numeric entity to be emitted literally, but the code's
`sscanf "%d"` parses 65 from it and decodes it to `A`, swallowing the `a`. -/
theorem extract_ssml_spec_cex :
    dectalk_extract_text_from_ssml (some ("&#65a;".toList)) false 100
        = (1, some ('A' :: [Char.ofNat 0]))
    ∧ dectalk_extract_text_from_ssml (some ("&#65a;".toList)) false 100
      ≠ ssmlExtractSpec (some ("&#65a;".toList)) false 100 := by decide

/-- C3 (amended: the generic numeric entity is parsed by `sscanf %d` rules —
leading C whitespace and an optional sign are accepted and characters
between the parsed digits and the first `;` are swallowed — rather than
requiring the exact digits-only shape `&#NNN;`): on every input the
extractor performs the single left-to-right scan the spec describes,
discarding tag characters, decoding the named entities, decoding generic
numeric entities in `(0, 256)` whose `;` lies within 8 characters, and
emitting the `&` literally (resuming right after it) when decoding fails. -/
theorem extract_ssml_matches_spec (ssml : Option (List Char)) (ptn : Bool)
    (m : Int) :
    dectalk_extract_text_from_ssml ssml ptn m = ssmlExtractSpecA ssml ptn m := by
  unfold dectalk_extract_text_from_ssml ssmlExtractSpecA
  simp only [ssmlScan, specScanFA_eq]
